import Mathlib

/-!
# Verification of the backporter orchestration engine

A shallow embedding of the backport orchestration engine and the automated
CI pipeline of the `backporter` repository, together with proofs of the
specification's testable properties.

External effects (git subprocess calls, forge HTTP calls, the history
file) are modelled explicitly: every external call either consults an
environment record (an oracle fixing the outcome of that call site) or a
threaded piece of state (the forge's set of open pull requests, the
in-memory history ledger), and each call appends an `Event` to a trace so
that frame properties ("performs no version-control mutation") are
statements about the trace.
-/

namespace Backporter

/-! ## Events emitted by external calls

Each constructor corresponds to one kind of external call made by the
engine (`pkg/git`, `pkg/forge`, the history cache).  Read-only calls
(fetching PR metadata, listing open PRs) are distinguished from mutating
ones by `Event.isVCMutation` / `Event.isForgeMutation`.
-/

/-- A history ledger record (`CacheEntry` in `pkg/backport/cache.go`).
`timestamp` abstracts Go's `time.Time` as a number supplied by the
environment. -/
structure CacheEntry where
  originalSHA : String
  backportSHA : String
  targetBranch : String
  prNumber : Nat := 0
  timestamp : Nat := 0
  message : String := ""
deriving DecidableEq, Repr

/-- Trace of one external side-effecting or observing call. -/
inductive Event where
  | checkout (branch : String)
  | createBranch (name fromRef : String)
  | deleteBranch (name : String)
  | cherryPick (sha : String)
  | abortCherryPick
  | amendMessage (message : String)
  | push (remote branch : String)
  | fetch (remote : String)
  | historyAppend (entry : CacheEntry)
  | forgeGetPR (number : Nat)
  | forgeListOpenPRs (head : String)
  | forgeCreatePR (title head base : String)
deriving DecidableEq, Repr

/-- Version-control mutations: everything that changes the local
repository (branch pointers, working tree, HEAD). -/
def Event.isVCMutation : Event → Bool
  | .checkout _ => true
  | .createBranch _ _ => true
  | .deleteBranch _ => true
  | .cherryPick _ => true
  | .abortCherryPick => true
  | .amendMessage _ => true
  | .push _ _ => true
  | .fetch _ => true
  | _ => false

/-- Forge mutations: creating a pull request. -/
def Event.isForgeMutation : Event → Bool
  | .forgeCreatePR _ _ _ => true
  | _ => false

/-- History-ledger mutations recorded in the trace. -/
def Event.isHistoryAppend : Event → Bool
  | .historyAppend _ => true
  | _ => false

/-- Any mutation of repository, forge, or ledger. -/
def Event.isMutation (e : Event) : Bool :=
  e.isVCMutation || e.isForgeMutation || e.isHistoryAppend

/-! ## Version signature (`shared/version/version.go`) -/

/-- `version.GitURL`. -/
def gitURL : String := "https://codefloe.com/pat-s/backporter"

/-- `version.SignatureMessage`: the text appended to backported commit
messages.  `version` models the build-time `Version` variable. -/
def signatureMessage (version originalSHA : String) : String :=
  "Backported from " ++ originalSHA ++ " using backporter " ++ version
    ++ " (" ++ gitURL ++ ")"

/-- Number of newline characters in a string. -/
def newlineCount (s : String) : Nat :=
  (s.data.filter (fun c => c = '\n')).length

/-- Number of lines of a (newline-separated) text: newlines plus one. -/
def lineCount (s : String) : Nat := newlineCount s + 1

/-! ## Pull-request number extraction (`cli/backport/ci.go`)

The five regular expressions of `prNumberPatterns` are embedded as
explicit scanning functions over the character list of the message,
following Go's leftmost-first match semantics: the whole-pattern match
starting at the earliest position wins, greedy `.*` (which never crosses
a newline) selects the last marker on the line, and `\d+` captures the
maximal digit run.
-/

/-- `pat` is a prefix of `l` (literal-prefix test used by the pattern
scanners). -/
def listStarts : List Char → List Char → Bool
  | [], _ => true
  | _ :: _, [] => false
  | a :: as, b :: bs => a = b && listStarts as bs

/-- Pattern `\(#(\d+)\)` tried at the head of `l`: returns the captured
digit run when the head matches. -/
def tryParenHash : List Char → Option (List Char)
  | '(' :: '#' :: rest =>
    let ds := rest.takeWhile Char.isDigit
    if ds.isEmpty then none
    else
      match rest.dropWhile Char.isDigit with
      | ')' :: _ => some ds
      | _ => none
  | _ => none

/-- A literal followed immediately by `(\d+)`, tried at the head of `l`
(pattern `Merge pull request #(\d+)`). -/
def tryLiteralThenDigits (lit : List Char) (l : List Char) : Option (List Char) :=
  if listStarts lit l then
    let ds := (l.drop lit.length).takeWhile Char.isDigit
    if ds.isEmpty then none else some ds
  else none

/-- Last occurrence (greedy `.*`) of `marker` followed by at least one
digit within `line`; returns that maximal digit run.  `acc` carries the
best capture found so far. -/
def lastSeqDigits (marker : List Char) : List Char → Option (List Char) → Option (List Char)
  | [], acc => acc
  | c :: rest, acc =>
    let here :=
      if listStarts marker (c :: rest) then
        let ds := ((c :: rest).drop marker.length).takeWhile Char.isDigit
        if ds.isEmpty then none else some ds
      else none
    lastSeqDigits marker rest (match here with | some d => some d | none => acc)

/-- A literal followed by `.*` then `marker(\d+)` on the same line, tried
at the head of `l` (patterns `Merge branch.*#(\d+)`,
`See merge request.*!(\d+)`, `Reviewed-on:.*pull/(\d+)`; `.` does not
match a newline in Go's regexp). -/
def tryLiteralDotStarMarker (lit marker : List Char) (l : List Char) : Option (List Char) :=
  if listStarts lit l then
    lastSeqDigits marker ((l.drop lit.length).takeWhile (fun c => c ≠ '\n')) none
  else none

/-- Leftmost-first driver: try the pattern at every start position
left-to-right and return the first successful capture. -/
def scanWith (f : List Char → Option (List Char)) : List Char → Option (List Char)
  | [] => f []
  | c :: rest =>
    match f (c :: rest) with
    | some r => some r
    | none => scanWith f rest

/-- `fmt.Sscanf(digits, "%d", &num)` followed by the `num > 0` check:
yields the value when it is positive and fits a 64-bit signed integer
(an overflowing capture makes `Sscanf` fail, so the pattern is skipped). -/
def sscanfPositive (ds : List Char) : Option Nat :=
  let v := ds.foldl (fun a c => a * 10 + (c.toNat - '0'.toNat)) 0
  if 0 < v ∧ v ≤ 9223372036854775807 then some v else none

/-- The five `prNumberPatterns`, in declaration order. -/
def prNumberPatterns : List (List Char → Option (List Char)) :=
  [ scanWith tryParenHash
  , scanWith (tryLiteralThenDigits "Merge pull request #".data)
  , scanWith (tryLiteralDotStarMarker "Merge branch".data ['#'])
  , scanWith (tryLiteralDotStarMarker "See merge request".data ['!'])
  , scanWith (tryLiteralDotStarMarker "Reviewed-on:".data "pull/".data) ]

/-- `parsePRNumber`: first pattern (in order) whose capture parses as a
positive integer wins; `0` when none does. -/
def parsePRNumber (message : String) : Nat :=
  let rec go : List (List Char → Option (List Char)) → Nat
    | [] => 0
    | p :: ps =>
      match p message.data with
      | some ds =>
        match sscanfPositive ds with
        | some n => n
        | none => go ps
      | none => go ps
  go prNumberPatterns

/-! ## Backport label and conventional-commit type extraction -/

/-- `needle` occurs as a contiguous subsequence of the second list. -/
def containsSeq (needle : List Char) : List Char → Bool
  | [] => needle.isEmpty
  | c :: rest => listStarts needle (c :: rest) || containsSeq needle rest

/-- ASCII lowering of a character list (Go's `strings.ToLower`; only the
ASCII range matters for detecting the literal `backport`). -/
def toLowerChars (l : List Char) : List Char := l.map Char.toLower

/-- Pull-request metadata (`forge.PRInfo`); `mergedAtStr` abstracts the
`MergedAt` timestamp as its already-formatted text. -/
structure PRInfo where
  number : Nat
  title : String := ""
  body : String := ""
  mergeCommit : String := ""
  squashed : Bool := true
  author : String := ""
  mergedAtStr : String := ""
  labels : List String := []
deriving DecidableEq, Repr

/-- `PRInfo.HasBackportLabel`: some label contains `backport`
case-insensitively. -/
def hasBackportLabel (pr : PRInfo) : Bool :=
  pr.labels.any (fun label => containsSeq "backport".data (toLowerChars label.data))

/-- `PRInfo.IsSquashMerge`. -/
def isSquashMerge (pr : PRInfo) : Bool := pr.squashed

/-- The closed set of conventional-commit types of `convCommitPattern`,
in alternation order (no type is a prefix of another). -/
def convCommitTypes : List String :=
  ["feat", "fix", "docs", "style", "refactor", "perf", "test", "build",
   "ci", "chore", "revert"]

/-- Go's regexp `\s` character class. -/
def isGoSpace (c : Char) : Bool :=
  c = ' ' || c = '\t' || c = '\n' || c = '\x0c' || c = '\r'

/-- After a matched type keyword: optional `\([^)]+\)` scope, then `:`
and a whitespace character.  Returns the scope text (with parentheses,
empty when absent), or `none` when the tail does not match. -/
def matchScopeColonSpace : List Char → Option (List Char)
  | '(' :: rest =>
    let sc := rest.takeWhile (fun c => c ≠ ')')
    if sc.isEmpty then none
    else
      match rest.dropWhile (fun c => c ≠ ')') with
      | ')' :: ':' :: s :: _ => if isGoSpace s then some ('(' :: (sc ++ [')'])) else none
      | _ => none
  | ':' :: s :: _ => if isGoSpace s then some [] else none
  | _ => none

/-- Model of `extractConvCommitPrefix` (regex
`^(feat|fix|...)(\([^)]+\))?:\s` anchored at the start of the title):
the type, with its parenthesized scope when present, or `""`. -/
def extractConvCommitPfx (title : String) : String :=
  let rec go : List String → String
    | [] => ""
    | t :: ts =>
      if listStarts t.data title.data then
        match matchScopeColonSpace (title.data.drop t.data.length) with
        | some sc => String.mk (t.data ++ sc)
        | none => go ts
      else go ts
  go convCommitTypes

/-- `formatBackportPRBody`: the generated backport pull-request body,
with the original description truncated at 2000 characters. -/
def formatBackportPRBody (originalPR : PRInfo) (targetBranch : String) : String :=
  let top := "Backport of #" ++ toString originalPR.number ++ " to `" ++ targetBranch
      ++ "`.\n\n" ++ "## Original PR\n\n"
      ++ "- **Title**: " ++ originalPR.title ++ "\n"
      ++ "- **Author**: @" ++ originalPR.author ++ "\n"
      ++ "- **Merged**: " ++ originalPR.mergedAtStr ++ "\n"
  let withBody :=
    if originalPR.body ≠ "" then
      let body :=
        if originalPR.body.length > 2000 then
          (originalPR.body.take 2000) ++ "\n\n... (truncated)"
        else originalPR.body
      top ++ "\n## Original Description\n\n" ++ body ++ "\n"
    else top
  withBody ++ "\n---\n*This PR was automatically created by [backporter](https://github.com/pat-s/backporter) in CI mode.*\n"

/-! ## History cache construction and file access (`pkg/backport/cache.go`)

`NewService` blanks the configured path when the cache is disabled; the
resulting path decides whether `load`/`save` touch the file system
(`load` and `save` return immediately when the path is empty). -/

/-- A file-system access performed by the history cache. -/
inductive FileEvent where
  | read (path : String)
  | write (path : String)
deriving DecidableEq, Repr

/-- `NewCache` path selection: an empty path falls back to
`$HOME/.cache/backporter/history.json` when the home directory resolves. -/
def newCachePath (path : String) (home : Option String) : String :=
  if path = "" then
    match home with
    | some h => h ++ "/.cache/backporter/history.json"
    | none => path
  else path

/-- The path `NewService` hands to `NewCache`: the configured path, or
`""` when the cache is disabled. -/
def newServiceCachePath (cacheEnabled : Bool) (cfgPath : String) (home : Option String) : String :=
  newCachePath (if cacheEnabled then cfgPath else "") home

/-- Disk reads performed by `Cache.load` (called by `NewCache`). -/
def cacheLoadEvents (path : String) : List FileEvent :=
  if path = "" then [] else [.read path]

/-- Disk writes performed by `Cache.save` (called by `Add` and `Clear`). -/
def cacheSaveEvents (path : String) : List FileEvent :=
  if path = "" then [] else [.write path]

/-- File accesses of constructing the history store through `NewService`. -/
def newServiceCacheEvents (cacheEnabled : Bool) (cfgPath : String) (home : Option String) : List FileEvent :=
  cacheLoadEvents (newServiceCachePath cacheEnabled cfgPath home)

/-- File accesses of `Cache.Clear` on a cache built with the given path. -/
def cacheClearEvents (path : String) : List FileEvent := cacheSaveEvents path

/-- `Cache.List` and the two `FindBy...` queries perform no file access. -/
def cacheQueryEvents (_path : String) : List FileEvent := []

/-! ## The backport engine (`pkg/backport/service.go`) -/

/-- Outcome of a `git cherry-pick` invocation (`git.CherryPickResult`
plus the hard-failure case where the Go function returns an error). -/
inductive CPOutcome where
  | ok (message : String)
  | conflict (message : String)
  | hardFail
deriving DecidableEq, Repr

/-- Errors returned by the engine and the pipeline (Go `error` values,
abstracted to their kind; `notSquashMerged` is the dedicated non-squash
error of `BackportPR`). -/
inductive GoErr where
  | commitNotFound
  | uncommittedCheckFailed
  | uncommittedChanges
  | currentBranchFailed
  | branchCheckFailed
  | targetBranchMissing
  | checkoutFailed (branch : String)
  | cherryPickHardFailed
  | getNewSHAFailed
  | getMessageFailed
  | amendFailed
  | getFinalSHAFailed
  | forgeNotConfigured
  | getPRFailed
  | notSquashMerged (prNumber : Nat)
  | ciEnvRequired
  | serviceCreationFailed
  | configureUserFailed
  | fetchFailed
  | getCommitMessageFailed
  | noTargetBranches
  | someBackportsFailed
deriving DecidableEq, Repr

/-- `backport.BackportResult`. -/
structure BackportResult where
  originalSHA : String := ""
  backportSHA : String := ""
  targetBranch : String := ""
  prNumber : Nat := 0
  success : Bool := false
  hasConflict : Bool := false
  message : String := ""
deriving DecidableEq, Repr

/-- Oracle fixing the outcome of each external call site of
`Service.BackportCommit`, in call order. -/
structure CommitEnv where
  resolve : Option String
  hasUncommitted : Option Bool
  currentBranch : Option String
  targetExists : Option Bool
  checkoutTargetOK : Bool
  cherryPick : CPOutcome
  shaAfterPick : Option String
  messageAt : String → Option String
  amendOK : Bool
  shaAfterAmend : Option String
  now : Nat

instance {ε α : Type} [DecidableEq ε] [DecidableEq α] : DecidableEq (Except ε α) := fun a b =>
  match a, b with
  | .error e, .error f =>
    if h : e = f then isTrue (by rw [h]) else isFalse (by simp [h])
  | .ok x, .ok y =>
    if h : x = y then isTrue (by rw [h]) else isFalse (by simp [h])
  | .error _, .ok _ => isFalse (by simp)
  | .ok _, .error _ => isFalse (by simp)

/-- Result of one engine operation: the returned value, the trace of
external calls, and the history ledger afterwards. -/
structure EngineOut where
  result : Except GoErr BackportResult
  trace : List Event
  hist : List CacheEntry
deriving DecidableEq, Repr

/-- `Service.BackportCommit`, translated clause by clause.  The deferred
return to the original branch is emitted on every exit after the target
checkout succeeds, except on a conflict (`shouldCheckoutBack = false`). -/
def backportCommit (env : CommitEnv) (cacheEnabled : Bool) (version : String)
    (targetBranch : String) (dryRun : Bool) (hist : List CacheEntry) : EngineOut :=
  match env.resolve with
  | none => ⟨.error .commitNotFound, [], hist⟩
  | some fullSHA =>
    match env.hasUncommitted with
    | none => ⟨.error .uncommittedCheckFailed, [], hist⟩
    | some true => ⟨.error .uncommittedChanges, [], hist⟩
    | some false =>
      match env.currentBranch with
      | none => ⟨.error .currentBranchFailed, [], hist⟩
      | some originalBranch =>
        match env.targetExists with
        | none => ⟨.error .branchCheckFailed, [], hist⟩
        | some false => ⟨.error .targetBranchMissing, [], hist⟩
        | some true =>
          if dryRun then
            ⟨.ok { originalSHA := fullSHA, targetBranch := targetBranch, success := true,
                   message := "dry-run: would backport commit" }, [], hist⟩
          else if !env.checkoutTargetOK then
            ⟨.error (.checkoutFailed targetBranch), [Event.checkout targetBranch], hist⟩
          else
            let back := if originalBranch ≠ "" then [Event.checkout originalBranch] else []
            let tr1 := [Event.checkout targetBranch, Event.cherryPick fullSHA]
            match env.cherryPick with
            | .hardFail => ⟨.error .cherryPickHardFailed, tr1 ++ back, hist⟩
            | .conflict msg =>
              ⟨.ok { originalSHA := fullSHA, targetBranch := targetBranch, success := false,
                     hasConflict := true, message := msg }, tr1, hist⟩
            | .ok _ =>
              match env.shaAfterPick with
              | none => ⟨.error .getNewSHAFailed, tr1 ++ back, hist⟩
              | some newSHA =>
                match env.messageAt newSHA with
                | none => ⟨.error .getMessageFailed, tr1 ++ back, hist⟩
                | some originalMessage =>
                  let newMessage := originalMessage ++ "\n\n" ++ signatureMessage version fullSHA
                  let tr2 := tr1 ++ [Event.amendMessage newMessage]
                  if !env.amendOK then ⟨.error .amendFailed, tr2 ++ back, hist⟩
                  else
                    match env.shaAfterAmend with
                    | none => ⟨.error .getFinalSHAFailed, tr2 ++ back, hist⟩
                    | some finalSHA =>
                      let res : BackportResult :=
                        { originalSHA := fullSHA, backportSHA := finalSHA,
                          targetBranch := targetBranch, success := true,
                          message := "commit successfully backported" }
                      if cacheEnabled then
                        let entry : CacheEntry :=
                          { originalSHA := fullSHA, backportSHA := finalSHA,
                            targetBranch := targetBranch, timestamp := env.now,
                            message := originalMessage }
                        ⟨.ok res, tr2 ++ [Event.historyAppend entry] ++ back, hist ++ [entry]⟩
                      else
                        ⟨.ok res, tr2 ++ back, hist⟩

/-- `s.cache.entries[len-1].PRNumber = prNumber`: overwrite the pull
request number of the last ledger entry. -/
def updateLastPRNumber : List CacheEntry → Nat → List CacheEntry
  | [], _ => []
  | [e], n => [{ e with prNumber := n }]
  | e :: rest, n => e :: updateLastPRNumber rest n

/-- Oracle for `Service.BackportPR`. -/
structure PREnv where
  forgeConfigured : Bool
  getPR : Nat → Option PRInfo
  commit : CommitEnv

/-- `Service.BackportPR`: fetch, reject non-squash merges, delegate to
`backportCommit`, attach the PR number, and (when the cache is enabled,
the result is a success, and a ledger entry matches the original hash)
overwrite the last ledger entry's PR number. -/
def backportPR (env : PREnv) (cacheEnabled : Bool) (version : String)
    (prNumber : Nat) (targetBranch : String) (dryRun : Bool)
    (hist : List CacheEntry) : EngineOut :=
  if !env.forgeConfigured then ⟨.error .forgeNotConfigured, [], hist⟩
  else
    match env.getPR prNumber with
    | none => ⟨.error .getPRFailed, [Event.forgeGetPR prNumber], hist⟩
    | some prInfo =>
      if !isSquashMerge prInfo then
        ⟨.error (.notSquashMerged prNumber), [Event.forgeGetPR prNumber], hist⟩
      else
        let out := backportCommit env.commit cacheEnabled version targetBranch dryRun hist
        match out.result with
        | .error e => ⟨.error e, Event.forgeGetPR prNumber :: out.trace, out.hist⟩
        | .ok r =>
          let r := { r with prNumber := prNumber }
          if cacheEnabled && r.success
              && !(out.hist.filter (fun e => e.originalSHA == r.originalSHA)).isEmpty then
            ⟨.ok r, Event.forgeGetPR prNumber :: out.trace, updateLastPRNumber out.hist prNumber⟩
          else
            ⟨.ok r, Event.forgeGetPR prNumber :: out.trace, out.hist⟩

/-! ## The automated CI pipeline (`cli/backport/ci.go`) -/

/-- Errors attached to a failed per-branch attempt (`CIResult.Error`,
abstracted to its kind). -/
inductive CIErr where
  | createBranchFailed
  | checkoutFailed
  | cherryPickFailed
  | cherryPickConflict
  | pushFailed
  | createPRFailed
deriving DecidableEq, Repr

/-- `backport.CIResult`. -/
structure CIResult where
  targetBranch : String
  success : Bool := false
  prNumber : Nat := 0
  skipped : Bool := false
  error : Option CIErr := none
  message : String := ""
deriving DecidableEq, Repr

/-- An open pull request on the forge, as far as the pipeline observes
it: its number and head branch. -/
structure OpenPR where
  number : Nat
  headBranch : String
deriving DecidableEq, Repr

/-- Forge-side state threaded through the pipeline: the open pull
requests and the number the next created one receives. -/
structure ForgeState where
  openPRs : List OpenPR
  nextNumber : Nat
deriving DecidableEq, Repr

/-- `ListOpenPRs` with a head filter. -/
def ForgeState.listOpenByHead (fs : ForgeState) (head : String) : List OpenPR :=
  fs.openPRs.filter (fun p => p.headBranch == head)

/-- `CreatePR`: returns the new number and the extended state. -/
def ForgeState.create (fs : ForgeState) (head : String) : Nat × ForgeState :=
  (fs.nextNumber, ⟨fs.openPRs ++ [⟨fs.nextNumber, head⟩], fs.nextNumber + 1⟩)

/-- Oracle fixing the outcome of each fallible external call in one
per-branch attempt (`processCIBackport`). -/
structure CIBranchEnv where
  listErr : Bool
  createBranchOK : Bool
  checkoutNewOK : Bool
  cherryPick : CPOutcome
  pushOK : Bool
  createPRErr : Bool
deriving DecidableEq, Repr

/-- The deterministic disposable branch name. -/
def backportBranchName (prNumber : Nat) (targetBranch : String) : String :=
  "backport-" ++ toString prNumber ++ "-to-" ++ targetBranch

/-- `processCIBackport`, translated clause by clause.  A failed
idempotency query (`listErr`) logs a warning and falls through; best
effort cleanup events mirror the `_ = git...` calls of the source. -/
def processCIBackport (env : CIBranchEnv) (prInfo : PRInfo)
    (targetBranch pfx remote : String) (dryRun : Bool) (fs : ForgeState) :
    CIResult × ForgeState × List Event :=
  let branchName := backportBranchName prInfo.number targetBranch
  let listEv := Event.forgeListOpenPRs branchName
  let existing := fs.listOpenByHead branchName
  if !env.listErr && !existing.isEmpty then
    let n := (existing.headD ⟨0, ""⟩).number
    ({ targetBranch := targetBranch, success := true, prNumber := n, skipped := true,
       message := "backport PR #" ++ toString n ++ " already exists" }, fs, [listEv])
  else if dryRun then
    ({ targetBranch := targetBranch, success := true,
       message := "would create backport PR" }, fs, [listEv])
  else
    let createEv := Event.createBranch branchName (remote ++ "/" ++ targetBranch)
    if !env.createBranchOK then
      ({ targetBranch := targetBranch, error := some .createBranchFailed,
         message := "failed to create branch" }, fs, [listEv, createEv])
    else if !env.checkoutNewOK then
      ({ targetBranch := targetBranch, error := some .checkoutFailed,
         message := "failed to checkout branch" }, fs,
       [listEv, createEv, Event.checkout branchName, Event.deleteBranch branchName])
    else
      let cpEv := Event.cherryPick prInfo.mergeCommit
      let cleanup := [Event.abortCherryPick, Event.checkout targetBranch,
                      Event.deleteBranch branchName]
      match env.cherryPick with
      | .hardFail =>
        ({ targetBranch := targetBranch, error := some .cherryPickFailed,
           message := "cherry-pick failed" }, fs,
         [listEv, createEv, Event.checkout branchName, cpEv] ++ cleanup)
      | .conflict _ =>
        ({ targetBranch := targetBranch, error := some .cherryPickConflict,
           message := "cherry-pick has conflicts - manual backport required" }, fs,
         [listEv, createEv, Event.checkout branchName, cpEv] ++ cleanup)
      | .ok _ =>
        let pushEv := Event.push remote branchName
        if !env.pushOK then
          ({ targetBranch := targetBranch, error := some .pushFailed,
             message := "failed to push" }, fs,
           [listEv, createEv, Event.checkout branchName, cpEv, pushEv,
            Event.checkout targetBranch, Event.deleteBranch branchName])
        else
          let prTitle := pfx ++ ": backport #" ++ toString prInfo.number
              ++ " to " ++ targetBranch
          let createPREv := Event.forgeCreatePR prTitle branchName targetBranch
          if env.createPRErr then
            ({ targetBranch := targetBranch, error := some .createPRFailed,
               message := "failed to create PR" }, fs,
             [listEv, createEv, Event.checkout branchName, cpEv, pushEv, createPREv])
          else
            let (newN, fs') := fs.create branchName
            ({ targetBranch := targetBranch, success := true, prNumber := newN,
               message := "created backport PR #" ++ toString newN }, fs',
             [listEv, createEv, Event.checkout branchName, cpEv, pushEv, createPREv,
              Event.checkout targetBranch])

set_option linter.unusedVariables false in
/-- Step 11 of `backportCI`: sequential fan-out over the configured
target branches.  `ctxCancelled` models the cancellation state of the
`context.Context` the loop receives: the loop body never consults it
(cancellation of in-flight forge HTTP calls is already reflected in the
per-branch oracle's error flags). -/
def ciFanOut (ctxCancelled : Bool) (envs : String → CIBranchEnv) (prInfo : PRInfo)
    (pfx remote : String) (dryRun : Bool) :
    List String → ForgeState → List CIResult × ForgeState × List Event
  | [], fs => ([], fs, [])
  | b :: bs, fs =>
    let out := processCIBackport (envs b) prInfo b pfx remote dryRun fs
    let rest := ciFanOut ctxCancelled envs prInfo pfx remote dryRun bs out.2.1
    (out.1 :: rest.1, rest.2.1, out.2.2 ++ rest.2.2)

/-- The aggregation check after the fan-out (ci.go lines 138-142):
`r.Error != nil && !r.Skipped` for some result. -/
def ciAnyFailed (results : List CIResult) : Bool :=
  results.any (fun r => r.error.isSome && !r.skipped)

/-- Outcome classification of `outputCISummary`: Failed is anything
neither Skipped nor Success. -/
def ciOutcomeFailed (r : CIResult) : Bool := !r.skipped && !r.success

/-- Oracle for the pipeline-level steps of `backportCI`. -/
structure PipelineEnv where
  isCI : Bool
  serviceOK : Bool
  configureUserOK : Bool
  fetchOK : Bool
  commitMsg : Option String
  getPR : Nat → Option PRInfo
  branchEnv : String → CIBranchEnv

/-- The configuration values `backportCI` reads. -/
structure CIConfig where
  remote : String := "origin"
  defaultBranch : String := "main"
  targetBranches : List String := []
  defaultPfx : String := "chore"

/-- `backportCI`, steps 1-13: environment gate, service creation, git
identity, fetch, tip message, PR-number extraction, metadata fetch,
label gate, branch fan-out, and the final failure check.  Returns the
completion value, the per-branch results, the forge state, and the trace
(the fetch plus all per-branch events). -/
def backportCI (ctxCancelled : Bool) (env : PipelineEnv) (cfg : CIConfig)
    (dryRun : Bool) (fs : ForgeState) :
    Except GoErr Unit × List CIResult × ForgeState × List Event :=
  if !env.isCI then (.error .ciEnvRequired, [], fs, [])
  else if !env.serviceOK then (.error .serviceCreationFailed, [], fs, [])
  else if !env.configureUserOK then (.error .configureUserFailed, [], fs, [])
  else if !env.fetchOK then (.error .fetchFailed, [], fs, [])
  else
    let fetchEv := Event.fetch cfg.remote
    match env.commitMsg with
    | none => (.error .getCommitMessageFailed, [], fs, [fetchEv])
    | some commitMsg =>
      let prNumber := parsePRNumber commitMsg
      if prNumber = 0 then (.ok (), [], fs, [fetchEv])
      else
        match env.getPR prNumber with
        | none => (.error .getPRFailed, [], fs, [fetchEv])
        | some prInfo =>
          if !hasBackportLabel prInfo then (.ok (), [], fs, [fetchEv])
          else if cfg.targetBranches.isEmpty then (.error .noTargetBranches, [], fs, [fetchEv])
          else
            let p := extractConvCommitPfx prInfo.title
            let pfx := if p = "" then cfg.defaultPfx else p
            let out := ciFanOut ctxCancelled env.branchEnv prInfo pfx cfg.remote dryRun
              cfg.targetBranches fs
            ((if ciAnyFailed out.1 then .error .someBackportsFailed else .ok ()),
             out.1, out.2.1, fetchEv :: out.2.2)

/-! ## Helper lemmas -/

/-- A list never equals itself extended by one element. -/
theorem self_ne_append_singleton (h : List CacheEntry) (e : CacheEntry) :
    h ≠ h ++ [e] := by
  intro hcontra
  have := congrArg List.length hcontra
  simp at this

/-- Newlines of a concatenation add up. -/
theorem newlineCount_append (a b : String) :
    newlineCount (a ++ b) = newlineCount a + newlineCount b := by
  simp [newlineCount, String.data_append, List.filter_append]

/-- The signature trailer is a single line whenever the version string
and the original hash contain no newline. -/
theorem signatureMessage_single_line (version sha : String)
    (hv : newlineCount version = 0) (hs : newlineCount sha = 0) :
    lineCount (signatureMessage version sha) = 1 := by
  have : newlineCount (signatureMessage version sha) = 0 := by
    simp [signatureMessage, newlineCount_append, hv, hs]
    decide
  simp [lineCount, this]

/-! ## C3: non-squash pull requests are rejected without mutation -/

/-- C3: `backport-by-pull-request` on a pull request whose merge commit
is not a squash merge fails with the dedicated non-squash error; the
only external call is the metadata read, so no checkout, cherry-pick,
or history append happens and the ledger is unchanged. -/
theorem backportPR_nonSquash_rejected (env : PREnv) (cacheEnabled : Bool)
    (version : String) (prNumber : Nat) (targetBranch : String) (dryRun : Bool)
    (hist : List CacheEntry) (prInfo : PRInfo)
    (hforge : env.forgeConfigured = true)
    (hget : env.getPR prNumber = some prInfo)
    (hsquash : prInfo.squashed = false) :
    backportPR env cacheEnabled version prNumber targetBranch dryRun hist =
      ⟨.error (.notSquashMerged prNumber), [Event.forgeGetPR prNumber], hist⟩ ∧
    ([Event.forgeGetPR prNumber].filter Event.isMutation) = [] := by
  constructor
  · unfold backportPR
    rw [hget]
    simp [hforge, isSquashMerge, hsquash]
  · simp [Event.isMutation, Event.isVCMutation, Event.isForgeMutation,
      Event.isHistoryAppend, List.filter]

/-- Concrete witness for `backportPR_nonSquash_rejected`: a two-parent
merge commit (`squashed = false`) is rejected untouched. -/
def c3Env : PREnv :=
  { forgeConfigured := true
    getPR := fun n =>
      if n = 42 then some { number := 42, mergeCommit := "m", squashed := false } else none
    commit :=
      { resolve := some "m", hasUncommitted := some false, currentBranch := some "main",
        targetExists := some true, checkoutTargetOK := true, cherryPick := .ok "",
        shaAfterPick := some "s", messageAt := fun _ => some "msg", amendOK := true,
        shaAfterAmend := some "f", now := 0 } }

theorem backportPR_nonSquash_rejected_witness :
    backportPR c3Env true "dev" 42 "release-1.0" false [] =
      ⟨.error (.notSquashMerged 42), [Event.forgeGetPR 42], []⟩ ∧
    ([Event.forgeGetPR 42].filter Event.isMutation) = [] :=
  backportPR_nonSquash_rejected c3Env true "dev" 42 "release-1.0" false []
    { number := 42, mergeCommit := "m", squashed := false } rfl rfl rfl

/-! ## C9: the disabled history store still touches the disk (code bug) -/

/-- C9 evaluated at a failing input: with the cache disabled
(`cfg.Cache.Enabled = false`, configured path `/tmp/cache.json`, home
directory `/home/user`), `NewService` passes the empty path to
`NewCache`, which substitutes the persistent per-user default — so
construction reads `~/.cache/backporter/history.json` from disk and
`Clear` rewrites it, contradicting the purely-in-memory claim (and the
code's own comment that a disabled cache "won't persist"). -/
theorem disabledCache_reads_and_writes_disk :
    newServiceCachePath false "/tmp/cache.json" (some "/home/user")
      = "/home/user/.cache/backporter/history.json" ∧
    newServiceCacheEvents false "/tmp/cache.json" (some "/home/user")
      = [FileEvent.read "/home/user/.cache/backporter/history.json"] ∧
    cacheClearEvents (newServiceCachePath false "/tmp/cache.json" (some "/home/user"))
      = [FileEvent.write "/home/user/.cache/backporter/history.json"] ∧
    newServiceCacheEvents false "/tmp/cache.json" (some "/home/user") ≠ [] := by
  refine ⟨by decide, by decide, by decide, by decide⟩

/-! ## C6: pull-request-number extraction -/

/-- C6: the extraction patterns are tried in their fixed priority order
(the parenthesized squash convention first, demonstrated by a message
matching two patterns), the documented examples yield 123, 789 and 55,
an unrecognized message yields no number, and a pipeline invocation
whose tip message yields no number exits successfully with no branch
processed and no mutation. -/
theorem parsePRNumber_spec :
    parsePRNumber "feat: add x (#123)" = 123 ∧
    parsePRNumber "Merge pull request #789 from user/branch" = 789 ∧
    parsePRNumber "Some commit message\n\nReviewed-on: https://codeberg.org/owner/repo/pull/55" = 55 ∧
    parsePRNumber "Merge branch 'feature' #200" = 200 ∧
    parsePRNumber "Merge branch 'feature' into main\n\nSee merge request owner/repo!100" = 100 ∧
    parsePRNumber "Merge pull request #789 from user/branch (#5)" = 5 ∧
    parsePRNumber "Just a regular commit message" = 0 ∧
    (∀ (cancelled : Bool) (env : PipelineEnv) (cfg : CIConfig) (dryRun : Bool)
        (fs : ForgeState) (msg : String),
      env.isCI = true → env.serviceOK = true → env.configureUserOK = true →
      env.fetchOK = true → env.commitMsg = some msg → parsePRNumber msg = 0 →
      backportCI cancelled env cfg dryRun fs = (.ok (), [], fs, [Event.fetch cfg.remote])) := by
  refine ⟨by decide, by decide, by decide, by decide, by decide, by decide, by decide, ?_⟩
  intro cancelled env cfg dryRun fs msg h1 h2 h3 h4 h5 h6
  unfold backportCI
  rw [h5]
  simp [h1, h2, h3, h4, h6]

/-- Concrete witness for the pipeline no-op clause of
`parsePRNumber_spec`. -/
def c6Env : PipelineEnv :=
  { isCI := true, serviceOK := true, configureUserOK := true, fetchOK := true,
    commitMsg := some "Just a regular commit message",
    getPR := fun _ => none,
    branchEnv := fun _ =>
      { listErr := false, createBranchOK := true, checkoutNewOK := true,
        cherryPick := .ok "", pushOK := true, createPRErr := false } }

theorem parsePRNumber_spec_witness :
    backportCI false c6Env { remote := "origin", targetBranches := ["release-1.0"] } false
        ⟨[], 1⟩ =
      (.ok (), [], ⟨[], 1⟩, [Event.fetch "origin"]) :=
  parsePRNumber_spec.2.2.2.2.2.2.2 false c6Env
    { remote := "origin", targetBranches := ["release-1.0"] } false ⟨[], 1⟩
    "Just a regular commit message" rfl rfl rfl rfl rfl (by decide)

/-! ## C7: the signature trailer -/

/-- Environment of a plain successful backport used to inspect the
amended commit message. -/
def c7Env : CommitEnv :=
  { resolve := some "abc123", hasUncommitted := some false, currentBranch := some "main",
    targetExists := some true, checkoutTargetOK := true, cherryPick := .ok "",
    shaAfterPick := some "n1", messageAt := fun _ => some "fix: x", amendOK := true,
    shaAfterAmend := some "f1", now := 0 }

/-- C7 counterexample: on a successful backport the amended message is
the original message, a blank line, and the signature — but the
signature is a single line, so no decomposition into original message,
blank line and a two-line trailer exists. -/
theorem signature_trailer_not_two_lines :
    (backportCommit c7Env true "dev" "release-1.0" false []).result =
      .ok { originalSHA := "abc123", backportSHA := "f1", targetBranch := "release-1.0",
            success := true, message := "commit successfully backported" } ∧
    (backportCommit c7Env true "dev" "release-1.0" false []).trace[2]? =
      some (Event.amendMessage ("fix: x" ++ "\n\n" ++ signatureMessage "dev" "abc123")) ∧
    ¬ ∃ t : String, "fix: x" ++ "\n\n" ++ signatureMessage "dev" "abc123" =
        "fix: x" ++ "\n\n" ++ t ∧ lineCount t = 2 := by
  refine ⟨by decide, by decide, ?_⟩
  rintro ⟨t, ht, h2⟩
  have hd := congrArg String.data ht
  simp only [String.data_append] at hd
  have hts : (signatureMessage "dev" "abc123").data = t.data :=
    List.append_cancel_left hd
  have : t = signatureMessage "dev" "abc123" := (String.ext hts).symm
  subst this
  have hone : lineCount (signatureMessage "dev" "abc123") = 1 := by decide
  omega

/-- C7 amended: every successful backported commit's message equals the
original message followed by a blank-line separator and the fixed
ONE-line signature trailer citing the original hash and tool version. -/
theorem backportCommit_signed_message (env : CommitEnv) (cacheEnabled : Bool)
    (version targetBranch : String) (hist : List CacheEntry)
    (fullSHA ob cpMsg newSHA origMsg finalSHA : String)
    (h1 : env.resolve = some fullSHA) (h2 : env.hasUncommitted = some false)
    (h3 : env.currentBranch = some ob) (h4 : env.targetExists = some true)
    (h5 : env.checkoutTargetOK = true) (h6 : env.cherryPick = .ok cpMsg)
    (h7 : env.shaAfterPick = some newSHA) (h8 : env.messageAt newSHA = some origMsg)
    (h9 : env.amendOK = true) (h10 : env.shaAfterAmend = some finalSHA) :
    (backportCommit env cacheEnabled version targetBranch false hist).result =
      .ok { originalSHA := fullSHA, backportSHA := finalSHA, targetBranch := targetBranch,
            success := true, message := "commit successfully backported" } ∧
    (∃ rest, (backportCommit env cacheEnabled version targetBranch false hist).trace =
      [Event.checkout targetBranch, Event.cherryPick fullSHA,
       Event.amendMessage (origMsg ++ "\n\n" ++ signatureMessage version fullSHA)] ++ rest) ∧
    (newlineCount version = 0 → newlineCount fullSHA = 0 →
      lineCount (signatureMessage version fullSHA) = 1) := by
  unfold backportCommit
  simp only [h1, h2, h3, h4, h5, h6, h7, h8, h9, h10, Bool.not_true,
    Bool.false_eq_true, if_false, ite_false]
  refine ⟨?_, ?_, fun hv hs => signatureMessage_single_line version fullSHA hv hs⟩
  · cases cacheEnabled <;> simp
  · cases cacheEnabled <;> simp

/-- Concrete witness for `backportCommit_signed_message`. -/
theorem backportCommit_signed_message_witness :
    (backportCommit c7Env true "dev" "release-1.0" false []).result =
      .ok { originalSHA := "abc123", backportSHA := "f1", targetBranch := "release-1.0",
            success := true, message := "commit successfully backported" } ∧
    (∃ rest, (backportCommit c7Env true "dev" "release-1.0" false []).trace =
      [Event.checkout "release-1.0", Event.cherryPick "abc123",
       Event.amendMessage ("fix: x" ++ "\n\n" ++ signatureMessage "dev" "abc123")] ++ rest) ∧
    (newlineCount "dev" = 0 → newlineCount "abc123" = 0 →
      lineCount (signatureMessage "dev" "abc123") = 1) :=
  backportCommit_signed_message c7Env true "dev" "release-1.0" [] "abc123" "main" "" "n1"
    "fix: x" "f1" rfl rfl rfl rfl rfl rfl rfl rfl rfl rfl

/-! ## C5: dry-run is not mutation-free (code bug) -/

/-- A ledger holding one record of an earlier plain commit backport of
the same original hash the pull request resolves to. -/
def c5Hist : List CacheEntry :=
  [{ originalSHA := "M", backportSHA := "B", targetBranch := "release-1.0",
     prNumber := 0, timestamp := 5, message := "orig" }]

/-- Pull request 7's merge commit resolves to the recorded hash `M`. -/
def c5Env : PREnv :=
  { forgeConfigured := true
    getPR := fun n =>
      if n = 7 then some { number := 7, mergeCommit := "m", squashed := true } else none
    commit :=
      { resolve := some "M", hasUncommitted := some false, currentBranch := some "main",
        targetExists := some true, checkoutTargetOK := true, cherryPick := .ok "",
        shaAfterPick := some "x", messageAt := fun _ => some "y", amendOK := true,
        shaAfterAmend := some "z", now := 9 } }

/-- C5 evaluated at a failing input: `backport-by-pull-request` with the
dry-run flag set performs no version-control call, yet — because the
dry-run result carries `Success = true` — the post-delegation cache
update overwrites the last ledger entry's pull-request number (and
rewrites the history file), mutating the history ledger. -/
theorem dryRun_backportPR_mutates_ledger :
    (backportPR c5Env true "dev" 7 "release-1.0" true c5Hist).result =
      .ok { originalSHA := "M", targetBranch := "release-1.0", prNumber := 7,
            success := true, message := "dry-run: would backport commit" } ∧
    (backportPR c5Env true "dev" 7 "release-1.0" true c5Hist).trace =
      [Event.forgeGetPR 7] ∧
    ((backportPR c5Env true "dev" 7 "release-1.0" true c5Hist).trace.filter
        Event.isVCMutation) = [] ∧
    (backportPR c5Env true "dev" 7 "release-1.0" true c5Hist).hist =
      [{ originalSHA := "M", backportSHA := "B", targetBranch := "release-1.0",
         prNumber := 7, timestamp := 5, message := "orig" }] ∧
    (backportPR c5Env true "dev" 7 "release-1.0" true c5Hist).hist ≠ c5Hist := by
  refine ⟨by decide, by decide, by decide, by decide, by decide⟩

/-! ## C2: history records and outcomes -/

/-- Branch oracle of an entirely successful CI per-branch attempt. -/
def c2BranchEnv : CIBranchEnv :=
  { listErr := false, createBranchOK := true, checkoutNewOK := true,
    cherryPick := .ok "", pushOK := true, createPRErr := false }

/-- C2 counterexample: a CI per-branch operation that ends in Success
(not Skipped) yet appends no history record — the presence-iff-Success
invariant fails for the automated per-branch procedure, which never
touches the ledger. -/
theorem ciSuccess_appends_no_history :
    ¬ (((processCIBackport c2BranchEnv { number := 3, mergeCommit := "m" }
          "release-1.0" "fix" "origin" false ⟨[], 10⟩).2.2.any Event.isHistoryAppend = true) ↔
       ((processCIBackport c2BranchEnv { number := 3, mergeCommit := "m" }
          "release-1.0" "fix" "origin" false ⟨[], 10⟩).1.success = true ∧
        (processCIBackport c2BranchEnv { number := 3, mergeCommit := "m" }
          "release-1.0" "fix" "origin" false ⟨[], 10⟩).1.skipped = false)) := by
  decide

/-- C2 amended: for the engine entry point a record is appended iff the
operation is a non-dry-run success with history enabled (Conflict,
Failed and dry-run runs never append); the automated per-branch
procedure never appends a record for any outcome. -/
theorem history_append_characterization :
    (∀ (env : CommitEnv) (cacheEnabled : Bool) (version targetBranch : String)
        (dryRun : Bool) (hist : List CacheEntry),
      ((∃ e, (backportCommit env cacheEnabled version targetBranch dryRun hist).hist =
          hist ++ [e]) ↔
        (dryRun = false ∧ cacheEnabled = true ∧
          ∃ r, (backportCommit env cacheEnabled version targetBranch dryRun hist).result =
              .ok r ∧ r.success = true))) ∧
    (∀ (env : CIBranchEnv) (prInfo : PRInfo) (targetBranch pfx remote : String)
        (dryRun : Bool) (fs : ForgeState),
      ((processCIBackport env prInfo targetBranch pfx remote dryRun fs).2.2.filter
          Event.isHistoryAppend) = []) := by
  constructor
  · intro env cacheEnabled version targetBranch dryRun hist
    unfold backportCommit
    repeat' split
    all_goals simp_all
  · intro env prInfo targetBranch pfx remote dryRun fs
    unfold processCIBackport
    repeat' split
    all_goals simp [Event.isHistoryAppend]
    all_goals repeat' split
    all_goals simp [Event.isHistoryAppend]

/-! ## C10: a failed idempotency query proceeds to create -/

/-- C10: when the open-PR query fails, the per-branch procedure neither
fails nor skips; it proceeds through branch creation, cherry-pick and
push, and opens a new pull request — growing the forge's open-PR list by
one regardless of what it already contains. -/
theorem processCI_listErr_proceeds (env : CIBranchEnv) (prInfo : PRInfo)
    (targetBranch pfx remote : String) (fs : ForgeState) (m : String)
    (hlist : env.listErr = true) (hcb : env.createBranchOK = true)
    (hco : env.checkoutNewOK = true) (hcp : env.cherryPick = .ok m)
    (hpush : env.pushOK = true) (hcpr : env.createPRErr = false) :
    (processCIBackport env prInfo targetBranch pfx remote false fs).1 =
      { targetBranch := targetBranch, success := true, prNumber := fs.nextNumber,
        message := "created backport PR #" ++ toString fs.nextNumber } ∧
    (processCIBackport env prInfo targetBranch pfx remote false fs).2.1.openPRs =
      fs.openPRs ++ [⟨fs.nextNumber, backportBranchName prInfo.number targetBranch⟩] ∧
    (processCIBackport env prInfo targetBranch pfx remote false fs).2.2.any
        Event.isForgeMutation = true := by
  unfold processCIBackport
  simp [hlist, hcb, hco, hcp, hpush, hcpr, ForgeState.create, Event.isForgeMutation]

/-- Per-branch oracle whose idempotency query errors but whose git and
create calls succeed. -/
def c10Env : CIBranchEnv :=
  { listErr := true, createBranchOK := true, checkoutNewOK := true,
    cherryPick := .ok "", pushOK := true, createPRErr := false }

/-- Forge state that already holds an open backport PR for the very same
pull request and branch. -/
def c10FS : ForgeState := ⟨[⟨5, backportBranchName 3 "release-1.0"⟩], 9⟩

/-- Witness for `processCI_listErr_proceeds`: the duplicate guarantee is
lost — a second open PR with the same head is created. -/
theorem processCI_listErr_proceeds_witness :
    (processCIBackport c10Env { number := 3, mergeCommit := "m" } "release-1.0" "fix"
        "origin" false c10FS).1 =
      { targetBranch := "release-1.0", success := true, prNumber := c10FS.nextNumber,
        message := "created backport PR #" ++ toString c10FS.nextNumber } ∧
    (processCIBackport c10Env { number := 3, mergeCommit := "m" } "release-1.0" "fix"
        "origin" false c10FS).2.1.openPRs =
      c10FS.openPRs ++ [⟨c10FS.nextNumber, backportBranchName 3 "release-1.0"⟩] ∧
    (processCIBackport c10Env { number := 3, mergeCommit := "m" } "release-1.0" "fix"
        "origin" false c10FS).2.2.any Event.isForgeMutation = true :=
  processCI_listErr_proceeds c10Env { number := 3, mergeCommit := "m" } "release-1.0"
    "fix" "origin" c10FS "" rfl rfl rfl rfl rfl rfl

/-! ## C4: idempotency of the per-branch procedure -/

/-- When the open-PR query succeeds and finds a pull request whose head
is the deterministic branch name, the attempt is Skipped (with
`Success = true` and the existing number) after the single read. -/
theorem processCI_skip (env : CIBranchEnv) (prInfo : PRInfo)
    (targetBranch pfx remote : String) (dryRun : Bool) (fs : ForgeState)
    (p : OpenPR) (rest : List OpenPR)
    (hlist : env.listErr = false)
    (hex : fs.listOpenByHead (backportBranchName prInfo.number targetBranch) = p :: rest) :
    processCIBackport env prInfo targetBranch pfx remote dryRun fs =
      ({ targetBranch := targetBranch, success := true, prNumber := p.number,
         skipped := true,
         message := "backport PR #" ++ toString p.number ++ " already exists" }, fs,
       [Event.forgeListOpenPRs (backportBranchName prInfo.number targetBranch)]) := by
  unfold processCIBackport
  simp [hlist, hex]

/-- Full description of a per-branch run in which the query succeeds,
finds nothing, and every subsequent step succeeds: a new pull request
with the deterministic head branch is created. -/
theorem processCI_listErr_run (env : CIBranchEnv) (prInfo : PRInfo)
    (targetBranch pfx remote : String) (fs : ForgeState) (m : String)
    (hlist : env.listErr = false) (hcb : env.createBranchOK = true)
    (hco : env.checkoutNewOK = true) (hcp : env.cherryPick = .ok m)
    (hpush : env.pushOK = true) (hcpr : env.createPRErr = false)
    (hnone : fs.listOpenByHead (backportBranchName prInfo.number targetBranch) = []) :
    processCIBackport env prInfo targetBranch pfx remote false fs =
      ({ targetBranch := targetBranch, success := true, prNumber := fs.nextNumber,
         message := "created backport PR #" ++ toString fs.nextNumber },
       ⟨fs.openPRs ++ [⟨fs.nextNumber, backportBranchName prInfo.number targetBranch⟩],
        fs.nextNumber + 1⟩,
       [Event.forgeListOpenPRs (backportBranchName prInfo.number targetBranch),
        Event.createBranch (backportBranchName prInfo.number targetBranch)
          (remote ++ "/" ++ targetBranch),
        Event.checkout (backportBranchName prInfo.number targetBranch),
        Event.cherryPick prInfo.mergeCommit,
        Event.push remote (backportBranchName prInfo.number targetBranch),
        Event.forgeCreatePR
          (pfx ++ ": backport #" ++ toString prInfo.number ++ " to " ++ targetBranch)
          (backportBranchName prInfo.number targetBranch) targetBranch,
        Event.checkout targetBranch]) := by
  unfold processCIBackport
  simp [hlist, hcb, hco, hcp, hpush, hcpr, hnone, ForgeState.create]

/-- C4: if an open pull request with the deterministic head
`backport-N-to-branch` exists, the procedure returns Skipped with
`Success = true` carrying that PR's number and performs only the read;
consequently, a second run directly after a fully successful first run
(same oracle, no intervening state change) is Skipped, leaves the forge
state untouched, and creates no second pull request. -/
theorem processCI_idempotent :
    (∀ (env : CIBranchEnv) (prInfo : PRInfo) (targetBranch pfx remote : String)
        (dryRun : Bool) (fs : ForgeState) (p : OpenPR) (rest : List OpenPR),
      env.listErr = false →
      fs.listOpenByHead (backportBranchName prInfo.number targetBranch) = p :: rest →
      processCIBackport env prInfo targetBranch pfx remote dryRun fs =
        ({ targetBranch := targetBranch, success := true, prNumber := p.number,
           skipped := true,
           message := "backport PR #" ++ toString p.number ++ " already exists" }, fs,
         [Event.forgeListOpenPRs (backportBranchName prInfo.number targetBranch)])) ∧
    (∀ (env : CIBranchEnv) (prInfo : PRInfo) (targetBranch pfx remote : String)
        (fs : ForgeState) (m : String),
      env.listErr = false → env.createBranchOK = true → env.checkoutNewOK = true →
      env.cherryPick = .ok m → env.pushOK = true → env.createPRErr = false →
      fs.listOpenByHead (backportBranchName prInfo.number targetBranch) = [] →
      (processCIBackport env prInfo targetBranch pfx remote false fs).1.success = true ∧
      (processCIBackport env prInfo targetBranch pfx remote false fs).1.skipped = false ∧
      processCIBackport env prInfo targetBranch pfx remote false
          (processCIBackport env prInfo targetBranch pfx remote false fs).2.1 =
        ({ targetBranch := targetBranch, success := true, prNumber := fs.nextNumber,
           skipped := true,
           message := "backport PR #" ++ toString fs.nextNumber ++ " already exists" },
         (processCIBackport env prInfo targetBranch pfx remote false fs).2.1,
         [Event.forgeListOpenPRs (backportBranchName prInfo.number targetBranch)])) := by
  constructor
  · exact fun env prInfo targetBranch pfx remote dryRun fs p rest h1 h2 =>
      processCI_skip env prInfo targetBranch pfx remote dryRun fs p rest h1 h2
  · intro env prInfo targetBranch pfx remote fs m hlist hcb hco hcp hpush hcpr hnone
    have hrun := processCI_listErr_run env prInfo targetBranch pfx remote fs m hlist hcb
      hco hcp hpush hcpr hnone
    refine ⟨?_, ?_, ?_⟩
    · rw [hrun]
    · rw [hrun]
    · have hfs1 : (processCIBackport env prInfo targetBranch pfx remote false fs).2.1 =
          ⟨fs.openPRs ++ [⟨fs.nextNumber, backportBranchName prInfo.number targetBranch⟩],
           fs.nextNumber + 1⟩ := by rw [hrun]
      have hf : (ForgeState.mk
            (fs.openPRs ++ [⟨fs.nextNumber, backportBranchName prInfo.number targetBranch⟩])
            (fs.nextNumber + 1)).listOpenByHead
            (backportBranchName prInfo.number targetBranch) =
          ⟨fs.nextNumber, backportBranchName prInfo.number targetBranch⟩ :: [] := by
        have := hnone
        simp only [ForgeState.listOpenByHead, List.filter_append] at this ⊢
        rw [this]
        simp
      rw [hfs1]
      exact processCI_skip env prInfo targetBranch pfx remote false _ _ [] hlist hf

/-- Concrete witness for `processCI_idempotent`: two consecutive runs on
an initially empty forge. -/
def c4Env : CIBranchEnv :=
  { listErr := false, createBranchOK := true, checkoutNewOK := true,
    cherryPick := .ok "", pushOK := true, createPRErr := false }

theorem processCI_idempotent_witness :
    (processCIBackport c4Env { number := 3, mergeCommit := "m" } "release-1.0" "fix"
        "origin" false ⟨[], 10⟩).1.success = true ∧
    (processCIBackport c4Env { number := 3, mergeCommit := "m" } "release-1.0" "fix"
        "origin" false ⟨[], 10⟩).1.skipped = false ∧
    processCIBackport c4Env { number := 3, mergeCommit := "m" } "release-1.0" "fix"
        "origin" false
        (processCIBackport c4Env { number := 3, mergeCommit := "m" } "release-1.0" "fix"
          "origin" false ⟨[], 10⟩).2.1 =
      ({ targetBranch := "release-1.0", success := true, prNumber := 10, skipped := true,
         message := "backport PR #" ++ toString 10 ++ " already exists" },
       (processCIBackport c4Env { number := 3, mergeCommit := "m" } "release-1.0" "fix"
          "origin" false ⟨[], 10⟩).2.1,
       [Event.forgeListOpenPRs (backportBranchName 3 "release-1.0")]) :=
  processCI_idempotent.2 c4Env { number := 3, mergeCommit := "m" } "release-1.0" "fix"
    "origin" ⟨[], 10⟩ "" rfl rfl rfl rfl rfl rfl (by decide)

/-- The fan-out always yields one result per configured branch. -/
theorem ciFanOut_length (cancelled : Bool) (envs : String → CIBranchEnv)
    (prInfo : PRInfo) (pfx remote : String) (dryRun : Bool) :
    ∀ (branches : List String) (fs : ForgeState),
      (ciFanOut cancelled envs prInfo pfx remote dryRun branches fs).1.length =
        branches.length
  | [], _ => rfl
  | b :: bs, fs => by
    simp [ciFanOut, ciFanOut_length cancelled envs prInfo pfx remote dryRun bs]

/-! ## C8: the fan-out loop and cancellation -/

/-- Branch oracle whose calls all succeed. -/
def c8Env : CIBranchEnv :=
  { listErr := false, createBranchOK := true, checkoutNewOK := true,
    cherryPick := .ok "", pushOK := true, createPRErr := false }

/-- C8 counterexample: with a cancelled execution context and two
configured branches, the fan-out still produces an outcome for BOTH
branches and the second branch's procedure is started (its idempotency
query appears in the trace) — the loop does not stop early. -/
theorem cancelled_fanout_still_attempts_all :
    ((ciFanOut true (fun _ => c8Env) { number := 3, mergeCommit := "m" } "fix" "origin"
        false ["a", "b"] ⟨[], 10⟩).1.length = 2) ∧
    ((ciFanOut true (fun _ => c8Env) { number := 3, mergeCommit := "m" } "fix" "origin"
        false ["a", "b"] ⟨[], 10⟩).2.2.contains
        (Event.forgeListOpenPRs (backportBranchName 3 "b")) = true) := by
  decide

/-- C8 amended: the fan-out loop never consults the cancellation state
of its context: its results, forge state and trace are identical for a
cancelled and a live context, and every configured branch receives
exactly one outcome (cancellation reaches only the in-flight forge HTTP
calls, whose failures are per-branch outcomes, never an early stop). -/
theorem ciFanOut_ignores_cancellation (a b : Bool) (envs : String → CIBranchEnv)
    (prInfo : PRInfo) (pfx remote : String) (dryRun : Bool)
    (branches : List String) (fs : ForgeState) :
    ciFanOut a envs prInfo pfx remote dryRun branches fs =
      ciFanOut b envs prInfo pfx remote dryRun branches fs ∧
    (ciFanOut a envs prInfo pfx remote dryRun branches fs).1.length = branches.length := by
  constructor
  · induction branches generalizing fs with
    | nil => rfl
    | cons x xs ih => simp only [ciFanOut, ih]
  · exact ciFanOut_length a envs prInfo pfx remote dryRun branches fs

/-! ## C1: one outcome per branch; pipeline fails iff some branch Failed -/

/-- Result-shape invariant of every per-branch attempt: the error value
is present exactly on Failed outcomes (neither Skipped nor Success), and
Skipped outcomes carry no error. -/
theorem processCI_result_inv (env : CIBranchEnv) (prInfo : PRInfo)
    (targetBranch pfx remote : String) (dryRun : Bool) (fs : ForgeState) :
    (processCIBackport env prInfo targetBranch pfx remote dryRun fs).1.error.isSome =
      ciOutcomeFailed (processCIBackport env prInfo targetBranch pfx remote dryRun fs).1 := by
  unfold processCIBackport
  repeat' split
  all_goals simp [ciOutcomeFailed]
  all_goals repeat' split
  all_goals simp [ciOutcomeFailed]

/-- Every result the fan-out produces satisfies the invariant. -/
theorem ciFanOut_inv (cancelled : Bool) (envs : String → CIBranchEnv) (prInfo : PRInfo)
    (pfx remote : String) (dryRun : Bool) :
    ∀ (branches : List String) (fs : ForgeState) (r : CIResult),
      r ∈ (ciFanOut cancelled envs prInfo pfx remote dryRun branches fs).1 →
      r.error.isSome = ciOutcomeFailed r
  | [], _, _, h => by simp [ciFanOut] at h
  | b :: bs, fs, r, h => by
    simp only [ciFanOut, List.mem_cons] at h
    rcases h with h | h
    · rw [h]; exact processCI_result_inv (envs b) prInfo b pfx remote dryRun fs
    · exact ciFanOut_inv cancelled envs prInfo pfx remote dryRun bs _ r h

/-- Under the invariant, the pipeline's failure check (an error on a
non-Skipped result) agrees with the summary's Failed classification. -/
theorem failedCheck_eq (r : CIResult) (h : r.error.isSome = ciOutcomeFailed r) :
    (r.error.isSome && !r.skipped) = ciOutcomeFailed r := by
  obtain ⟨tb, su, pn, sk, er, msg⟩ := r
  cases su <;> cases sk <;> cases er <;> simp_all [ciOutcomeFailed]

theorem ciAnyFailed_iff (rs : List CIResult)
    (hinv : ∀ r ∈ rs, r.error.isSome = ciOutcomeFailed r) :
    ciAnyFailed rs = true ↔ ∃ r ∈ rs, ciOutcomeFailed r = true := by
  unfold ciAnyFailed
  rw [List.any_eq_true]
  constructor
  · rintro ⟨r, hr, hp⟩
    exact ⟨r, hr, by rw [← failedCheck_eq r (hinv r hr)]; exact hp⟩
  · rintro ⟨r, hr, hp⟩
    exact ⟨r, hr, by rw [failedCheck_eq r (hinv r hr)]; exact hp⟩

/-- C1: once the fan-out starts, every configured target branch yields
exactly one outcome (earlier failures never abort the loop), and the
pipeline invocation errors if and only if some branch outcome is Failed;
Skipped and Success outcomes never fail the pipeline. -/
theorem backportCI_outcome_aggregation
    (cancelled : Bool) (env : PipelineEnv) (cfg : CIConfig) (dryRun : Bool)
    (fs : ForgeState) (msg : String) (prInfo : PRInfo)
    (h1 : env.isCI = true) (h2 : env.serviceOK = true) (h3 : env.configureUserOK = true)
    (h4 : env.fetchOK = true) (h5 : env.commitMsg = some msg)
    (h6 : parsePRNumber msg ≠ 0) (h7 : env.getPR (parsePRNumber msg) = some prInfo)
    (h8 : hasBackportLabel prInfo = true) (h9 : cfg.targetBranches ≠ []) :
    (backportCI cancelled env cfg dryRun fs).2.1.length = cfg.targetBranches.length ∧
    ((backportCI cancelled env cfg dryRun fs).1 = .error .someBackportsFailed ↔
      ∃ r ∈ (backportCI cancelled env cfg dryRun fs).2.1, ciOutcomeFailed r = true) ∧
    ((backportCI cancelled env cfg dryRun fs).1 = .ok () ∨
      (backportCI cancelled env cfg dryRun fs).1 = .error .someBackportsFailed) := by
  have h9' : cfg.targetBranches.isEmpty = false := by
    cases h : cfg.targetBranches with
    | nil => exact absurd h h9
    | cons a l => rfl
  unfold backportCI
  rw [h5]
  simp only [h1, h2, h3, h4, h6, h7, h8, h9', Bool.not_true, Bool.false_eq_true,
    if_false, ite_false, if_neg h6]
  set pfx := (if extractConvCommitPfx prInfo.title = "" then cfg.defaultPfx
    else extractConvCommitPfx prInfo.title) with hpfx
  have hlen := ciFanOut_length cancelled env.branchEnv prInfo pfx
    cfg.remote dryRun cfg.targetBranches fs
  have hiff := ciAnyFailed_iff
    (ciFanOut cancelled env.branchEnv prInfo pfx cfg.remote dryRun cfg.targetBranches fs).1
    (fun r hr => ciFanOut_inv cancelled env.branchEnv prInfo pfx cfg.remote dryRun
      cfg.targetBranches fs r hr)
  refine ⟨hlen, ?_, ?_⟩
  · cases hfail : ciAnyFailed
        (ciFanOut cancelled env.branchEnv prInfo pfx cfg.remote dryRun
          cfg.targetBranches fs).1 with
    | false =>
      simp only [hfail, Bool.false_eq_true, if_false, ite_false]
      refine iff_of_false (by simp) ?_
      intro h
      have hx := hiff.mpr h
      rw [hfail] at hx
      exact absurd hx (by simp)
    | true =>
      simp only [hfail, if_true, ite_true, true_iff]
      exact hiff.mp hfail
  · cases hfail : ciAnyFailed
        (ciFanOut cancelled env.branchEnv prInfo pfx cfg.remote dryRun
          cfg.targetBranches fs).1 <;> simp [hfail]

/-- The spec's two-branch scenario, used as the witness: cherry-pick
onto `a` conflicts, onto `b` succeeds. -/
def c1PR : PRInfo :=
  { number := 3, mergeCommit := "m", title := "feat: x", labels := ["backport"] }

def c1Env : PipelineEnv :=
  { isCI := true, serviceOK := true, configureUserOK := true, fetchOK := true,
    commitMsg := some "feat: x (#3)",
    getPR := fun n => if n = 3 then some c1PR else none,
    branchEnv := fun b =>
      if b = "a" then
        { listErr := false, createBranchOK := true, checkoutNewOK := true,
          cherryPick := .conflict "CONFLICT", pushOK := true, createPRErr := false }
      else
        { listErr := false, createBranchOK := true, checkoutNewOK := true,
          cherryPick := .ok "", pushOK := true, createPRErr := false } }

def c1Cfg : CIConfig :=
  { remote := "origin", targetBranches := ["a", "b"], defaultPfx := "chore" }

/-- Witness for `backportCI_outcome_aggregation`, realizing the spec's
scenario: one Failed/Conflict outcome for `a`, one Success outcome for
`b` (branch `b` is attempted despite `a`'s conflict), and the overall
invocation errors. -/
theorem backportCI_outcome_aggregation_witness :
    ((backportCI false c1Env c1Cfg false ⟨[], 10⟩).2.1.length =
        c1Cfg.targetBranches.length ∧
      ((backportCI false c1Env c1Cfg false ⟨[], 10⟩).1 = .error .someBackportsFailed ↔
        ∃ r ∈ (backportCI false c1Env c1Cfg false ⟨[], 10⟩).2.1,
          ciOutcomeFailed r = true) ∧
      ((backportCI false c1Env c1Cfg false ⟨[], 10⟩).1 = .ok () ∨
        (backportCI false c1Env c1Cfg false ⟨[], 10⟩).1 =
          .error .someBackportsFailed)) ∧
    (backportCI false c1Env c1Cfg false ⟨[], 10⟩).2.1 =
      [{ targetBranch := "a", error := some .cherryPickConflict,
         message := "cherry-pick has conflicts - manual backport required" },
       { targetBranch := "b", success := true, prNumber := 10,
         message := "created backport PR #10" }] ∧
    (backportCI false c1Env c1Cfg false ⟨[], 10⟩).1 = .error .someBackportsFailed :=
  ⟨backportCI_outcome_aggregation false c1Env c1Cfg false ⟨[], 10⟩ "feat: x (#3)" c1PR
      rfl rfl rfl rfl rfl (by decide) (by decide) (by decide) (by decide),
    by decide, by decide⟩

end Backporter
